import Mathlib

/-!
Verification of the DID lifecycle core in `src/did.py`: deterministic
document construction, JSON serialization, recoverable signing, and
signature-based verification.

The Python module builds an identity document as a Python `dict` and
serializes it with `json.dumps` (default settings: insertion-order key
output, `", "` and `": "` separators, `ensure_ascii`).  We embed Python
dict/list/str values as `JValue` and `json.dumps` as `dumps`.

The cryptographic engine (`eth_account` / `web3`: `Account.create`,
`encode_defunct`, `sign_message`, `recover_message`) is external library
code, not part of the repository; it is modelled from the spec (§4.4
SignatureEngine): a recoverable signature determines the signer address
from signature plus message alone, recovery on a different message or a
malformed signature fails with a recovery error.
-/

/-- A Python value as passed to `json.dumps`: strings, lists, and dicts
(a dict is an insertion-ordered association list, which is exactly the
iteration order `json.dumps` serializes). -/
inductive JValue where
  | str (s : String)
  | arr (elems : List JValue)
  | obj (members : List (String × JValue))

/-- Lowercase hex digit, used by the `\uXXXX` escape of `json.dumps`. -/
def hexDigit (n : Nat) : Char :=
  if n < 10 then Char.ofNat (48 + n) else Char.ofNat (87 + n % 16)

/-- Escaping of one character inside a JSON string, per `json.dumps`
with its default `ensure_ascii=True` (characters above the basic plane
would use surrogate pairs; all strings in this module are ASCII). -/
def escapeChar (c : Char) : String :=
  if c = '"' then "\\\""
  else if c = '\\' then "\\\\"
  else if c = '\n' then "\\n"
  else if c = '\t' then "\\t"
  else if c = '\r' then "\\r"
  else if c.toNat < 32 || c.toNat > 126 then
    "\\u" ++ String.mk [hexDigit (c.toNat / 4096 % 16), hexDigit (c.toNat / 256 % 16),
                        hexDigit (c.toNat / 16 % 16), hexDigit (c.toNat % 16)]
  else String.singleton c

/-- A JSON string literal: quotes around the escaped characters. -/
def quoteStr (s : String) : String :=
  "\"" ++ String.join (s.data.map escapeChar) ++ "\""

mutual
/-- `json.dumps` with its defaults: item separator `", "`, key separator
`": "`, keys emitted in dict insertion order (no `sort_keys`). -/
def dumps : JValue → String
  | .str s => quoteStr s
  | .arr es => "[" ++ String.intercalate ", " (dumpsArr es) ++ "]"
  | .obj ms => "\x7b" ++ String.intercalate ", " (dumpsObj ms) ++ "\x7d"
/-- Rendered elements of a JSON array. -/
def dumpsArr : List JValue → List String
  | [] => []
  | e :: es => dumps e :: dumpsArr es
/-- Rendered `"key": value` entries of a JSON object, in list order. -/
def dumpsObj : List (String × JValue) → List String
  | [] => []
  | (k, v) :: ms => (quoteStr k ++ ": " ++ dumps v) :: dumpsObj ms
end

/-- Python `str.lower()` restricted to the ASCII strings this module
handles (hex addresses, DID strings). -/
def str_lower (s : String) : String := String.mk (s.data.map Char.toLower)

/-- The `verification_method` dict of `create_ethereum_did`
(src/did.py lines 17-22), with the keys in source order. -/
structure VerificationMethod where
  id : String
  type : String
  controller : String
  blockchainAccountId : String

/-- The `did_document` dict of `create_ethereum_did` (src/did.py lines
25-34); `context` embeds the `"@context"` key. -/
structure DIDDocument where
  context : List String
  id : String
  verificationMethod : List VerificationMethod
  authentication : List String
  assertionMethod : List String

/-- The DID string of src/did.py line 15: the network segment is the
hardcoded literal `optimism`; the address is interpolated verbatim. -/
def did_string (address : String) : String :=
  "did:ethr:optimism:" ++ address

/-- The verification method built at src/did.py lines 17-22; the chain
id segment is the hardcoded literal `10`. -/
def verification_method (address : String) : VerificationMethod :=
  let did := did_string address
  { id := did ++ "#controller"
  , type := "EcdsaSecp256k1RecoveryMethod2020"
  , controller := did
  , blockchainAccountId := "eip155:10:" ++ address }

/-- The DID document built at src/did.py lines 25-34. -/
def did_document (address : String) : DIDDocument :=
  let did := did_string address
  let vm := verification_method address
  { context := ["https://www.w3.org/ns/did/v1",
                "https://w3id.org/security/suites/secp256k1recovery-2020/v2"]
  , id := did
  , verificationMethod := [vm]
  , authentication := [vm.id]
  , assertionMethod := [vm.id] }

/-- The `verification_method` dict as the Python value handed to
`json.dumps`, keys in the insertion order of src/did.py lines 17-22. -/
def vmJson (vm : VerificationMethod) : JValue :=
  .obj [("id", .str vm.id), ("type", .str vm.type),
        ("controller", .str vm.controller),
        ("blockchainAccountId", .str vm.blockchainAccountId)]

/-- The key-value entries of the `did_document` dict, in the insertion
order of src/did.py lines 25-34. -/
def docMembers (d : DIDDocument) : List (String × JValue) :=
  [("@context", .arr (d.context.map JValue.str)),
   ("id", .str d.id),
   ("verificationMethod", .arr (d.verificationMethod.map vmJson)),
   ("authentication", .arr (d.authentication.map JValue.str)),
   ("assertionMethod", .arr (d.assertionMethod.map JValue.str))]

/-- The `did_document` dict as a Python value. -/
def docJson (d : DIDDocument) : JValue := .obj (docMembers d)

/-- `message = json.dumps(did_document)`: the serialization step shared
by `create_ethereum_did` (line 37) and `verify_did` (line 51). -/
def serialize_document (d : DIDDocument) : String := dumps (docJson d)

/-- Top-level keys of a serialized JSON object. -/
def objKeys : JValue → List String
  | .obj ms => ms.map Prod.fst
  | _ => []

/-- Modelled from the spec: the key pair produced by the external
`eth_account` call `Account.create()` (spec §4.1 KeyMaterial): a
private key (the code stores `acct.key.hex()`) and the derived address
`acct.address`, a deterministic function of the key that the core never
recomputes and never overrides. -/
structure KeyPair where
  privateKey : String
  address : String

/-- Modelled from the spec (§4.4): failures of address recovery — a
malformed signature, or recovery that mathematically fails. -/
inductive RecoveryError where
  | malformedSignature
  | recoveryFailed

/-- Modelled from the spec (§4.4): a recoverable signature carries
enough information (r, s and the recovery id) that the signer address
is reconstructible from signature plus message alone; we model it as
recording the prefixed message hash it signed and the signer address.
A `malformed` signature is one recovery rejects. -/
inductive Signature where
  | valid (signedMessage : String) (signerAddress : String)
  | malformed (raw : String)

/-- Modelled from the spec (§4.4): `encode_defunct(text=...)`, the
EIP-191 message-prefix transform applied identically before signing and
before recovery. -/
def encode_defunct (text : String) : String :=
  "\x19Ethereum Signed Message:\n" ++ toString text.length ++ text

/-- Modelled from the spec (§4.4): `sign_message` produces a
recoverable signature over the prefixed message with the caller's key;
recovery from it yields the key's address. -/
def sign_message (messageHash : String) (acct : KeyPair) : Signature :=
  .valid messageHash acct.address

/-- Modelled from the spec (§4.4): `Account.recover_message` recovers
the signer address from the prefixed message and the signature; it
fails on a malformed signature, and a signature presented against a
message other than the one signed carries no guarantee about the
recovered value — modelled as recovery failure. -/
def recover_message (messageHash : String) (sig : Signature) :
    Except RecoveryError String :=
  match sig with
  | .malformed _ => .error .malformedSignature
  | .valid sm sa => if messageHash = sm then .ok sa else .error .recoveryFailed

/-- The bundle dict returned by `create_ethereum_did` (src/did.py lines
41-47) and accepted by `verify_did` as `did_info`. -/
structure DIDInfo where
  did : String
  did_document : DIDDocument
  private_key : String
  address : String
  signature : Signature

/-- `create_ethereum_did` (src/did.py lines 7-47), parameterized by the
key pair that the external `Account.create()` call produces: build the
DID string and document from `acct.address`, serialize the document,
apply the message prefix, sign, and return the bundle. -/
def create_ethereum_did (acct : KeyPair) : DIDInfo :=
  let private_key := acct.privateKey
  let address := acct.address
  let did := did_string address
  let doc := did_document address
  let message := serialize_document doc
  let message_hash := encode_defunct message
  let signed := sign_message message_hash acct
  { did := did
  , did_document := doc
  , private_key := private_key
  , address := address
  , signature := signed }

/-- `verify_did` (src/did.py lines 49-59): re-serialize the bundle's
document, apply the prefix transform, recover the signer address, and
compare it to the bundle's address after lowercasing both sides.  The
code wraps `Account.recover_message` in no handler, so a recovery
failure propagates out of `verify_did` instead of yielding a boolean;
the embedding returns it in the `Except` error channel. -/
def verify_did (did_info : DIDInfo) : Except RecoveryError Bool :=
  let message := serialize_document did_info.did_document
  let message_hash := encode_defunct message
  match recover_message message_hash did_info.signature with
  | .error e => .error e
  | .ok recovered_address =>
      .ok (str_lower recovered_address == str_lower did_info.address)

/-- The text after the last colon of a string (the address segment of a
`did:ethr:<network>:<address>` string). -/
def afterLastColon (s : String) : String :=
  ((s.data.reverse.takeWhile (fun c => c ≠ ':')).reverse).asString

/-! Concrete inputs used by closed theorems. -/

/-- Address used by the C2 instances. -/
def c2Address : String := "0x2222222222222222222222222222222222222222"

/-- The same address written as an append, so the C2 witness instance
is stated on a second, syntactically different document expression. -/
def c2AddressCopy : String := "0x22222222222222222222" ++ "22222222222222222222"

/-- The document built for `c2Address`. -/
def c2Doc : DIDDocument := did_document c2Address

/-- The entries of the `c2Doc` dict with the first two keys inserted in
the opposite order: the same field values, a different insertion
order of the underlying map. -/
def c2SwappedMembers : List (String × JValue) :=
  match docMembers c2Doc with
  | a :: b :: rest => b :: a :: rest
  | l => l

/-- EIP-55 checksummed address, the form `Account.create().address`
returns: mixed-case hex. -/
def c4Address : String := "0x5aAeb6053F3E94C9b9A09f33669435E7Ef1BeAed"

/-- A key pair whose derived address is the checksummed `c4Address`. -/
def c4KeyPair : KeyPair := { privateKey := "0x01", address := c4Address }

/-- Lowercase form of the C5 address. -/
def c5AddressLower : String := "0xabcdefabcdefabcdefabcdefabcdefabcdefabcd"

/-- Uppercase form of the C5 address: same address up to letter case. -/
def c5AddressUpper : String := "0xABCDEFABCDEFABCDEFABCDEFABCDEFABCDEFABCD"

/-- The document of the C5 bundle. -/
def c5Doc : DIDDocument := did_document c5AddressLower

/-- A bundle whose stored address is the uppercase form while the
signature recovers the lowercase form. -/
def c5Bundle : DIDInfo :=
  { did := did_string c5AddressLower
  , did_document := c5Doc
  , private_key := "0x02"
  , address := c5AddressUpper
  , signature := .valid (encode_defunct (serialize_document c5Doc)) c5AddressLower }

/-- Address used by the C6 instance. -/
def c6Address : String := "0x3333333333333333333333333333333333333333"

/-- Address used by the C7 instances. -/
def c7Address : String := "0x4444444444444444444444444444444444444444"

/-- A bundle carrying a malformed signature. -/
def c7Bundle : DIDInfo :=
  { did := did_string c7Address
  , did_document := did_document c7Address
  , private_key := "0x03"
  , address := c7Address
  , signature := .malformed "0x00" }

/-- A second bundle carrying a (different) malformed signature. -/
def c7BundleW : DIDInfo :=
  { did := did_string c7Address
  , did_document := did_document c7Address
  , private_key := "0x04"
  , address := c7Address
  , signature := .malformed "0xff" }

/-- Address used by the C10 instances. -/
def c10Address : String := "0x5555555555555555555555555555555555555555"

/-- A C10 bundle. -/
def c10BundleA : DIDInfo :=
  { did := did_string c10Address
  , did_document := did_document c10Address
  , private_key := "0x05"
  , address := c10Address
  , signature := .malformed "0x00" }

/-- A bundle agreeing with `c10BundleA` on document, signature and
address, but with a different `did` and `private_key`. -/
def c10BundleB : DIDInfo :=
  { did := "did:example:unrelated"
  , did_document := did_document c10Address
  , private_key := "0x06"
  , address := c10Address
  , signature := .malformed "0x00" }

/-- C1: for every generated key pair, verifying the bundle returned by
`create_ethereum_did` succeeds — the address recovered from the
canonical serialization of the document and the signature over that
same serialization is the pair's address, so `verify_did` returns
true. -/
theorem C1_create_verify_roundtrip (k : KeyPair) :
    verify_did (create_ethereum_did k) = .ok true := by
  simp [verify_did, create_ethereum_did, recover_message, sign_message]

/-- C2 counterexample: two dicts holding the same document entries
(a permutation of each other, hence equal field values for every key)
serialize to different bytes under the `json.dumps` step used by
signing and verification, because keys are emitted in insertion order
and `sort_keys` is not set. -/
theorem C2_counterexample :
    List.Perm (docMembers c2Doc) c2SwappedMembers
    ∧ serialize_document c2Doc ≠ dumps (JValue.obj c2SwappedMembers) := by
  constructor
  · exact List.Perm.swap _ _ _
  · decide

/-- C2 amended: the serialization is canonical for documents rendered
through the builder's fixed field order — equal field values for
context, id, verificationMethod, authentication and assertionMethod
yield byte-identical serializations, so building twice from the same
address serializes identically. -/
theorem C2_serialization_canonical_fixed_order (d1 d2 : DIDDocument)
    (hc : d1.context = d2.context) (hi : d1.id = d2.id)
    (hv : d1.verificationMethod = d2.verificationMethod)
    (ha : d1.authentication = d2.authentication)
    (hm : d1.assertionMethod = d2.assertionMethod) :
    serialize_document d1 = serialize_document d2 := by
  have h : d1 = d2 := by
    cases d1; cases d2; simp_all
  rw [h]

/-- C2 witness: the canonical-for-fixed-order theorem applied to the
document built twice for the address `0x2222...2222` (once from a
literal, once from an appended copy of it). -/
theorem C2_witness :
    serialize_document c2Doc = serialize_document (did_document c2AddressCopy) :=
  C2_serialization_canonical_fixed_order c2Doc (did_document c2AddressCopy)
    rfl rfl rfl rfl rfl

/-- C3: for the address `0x1111111111111111111111111111111111111111`,
document construction produces the DID
`did:ethr:optimism:0x1111111111111111111111111111111111111111` and a
verification method whose blockchainAccountId is
`eip155:10:0x1111111111111111111111111111111111111111`. -/
theorem C3_optimism_scenario :
    did_string "0x1111111111111111111111111111111111111111"
        = "did:ethr:optimism:0x1111111111111111111111111111111111111111"
    ∧ (did_document "0x1111111111111111111111111111111111111111").id
        = "did:ethr:optimism:0x1111111111111111111111111111111111111111"
    ∧ (verification_method "0x1111111111111111111111111111111111111111").blockchainAccountId
        = "eip155:10:0x1111111111111111111111111111111111111111" :=
  ⟨rfl, rfl, rfl⟩

/-- C4 counterexample: for a key pair whose derived address is the
EIP-55 checksummed (mixed-case) form that `Account.create().address`
returns, the address segment of the produced DID (the text after the
last colon) is that checksummed string, which is not lowercase. -/
theorem C4_counterexample :
    afterLastColon (create_ethereum_did c4KeyPair).did = c4Address
    ∧ str_lower c4Address ≠ c4Address := by
  exact ⟨by decide, by decide⟩

/-- C4 amended: the DID ends in the generated address verbatim —
construction applies no case normalization, so the address segment is
lowercase only when the generator happens to return lowercase, which
the checksummed `eth_account` addresses generally are not. -/
theorem C4_address_segment_verbatim (k : KeyPair) :
    (create_ethereum_did k).did = "did:ethr:optimism:" ++ k.address := rfl

/-- C5: verification compares the recovered address to the bundle's
stored address case-insensitively — whenever recovery succeeds and the
two agree up to letter case, `verify_did` returns true. -/
theorem C5_case_insensitive_equality (b : DIDInfo) (r : String)
    (hrec : recover_message (encode_defunct (serialize_document b.did_document)) b.signature
        = Except.ok r)
    (hcase : str_lower r = str_lower b.address) :
    verify_did b = .ok true := by
  simp only [verify_did]
  rw [hrec]
  simp [hcase]

/-- C5 witness: the case-insensitive-equality theorem applied to a
bundle storing the uppercase address while recovery yields the
lowercase one. -/
theorem C5_witness : verify_did c5Bundle = .ok true :=
  C5_case_insensitive_equality c5Bundle c5AddressLower
    (by simp [c5Bundle, recover_message])
    (by decide)

/-- C6 counterexample: document construction takes no network
identifier at all — the network segment and chain id are the hardcoded
default `optimism` / `10`, produced unconditionally for any address,
so there is no unmapped-network failure and the default network is
always used silently. -/
theorem C6_counterexample :
    (did_document c6Address).id = "did:ethr:optimism:" ++ c6Address
    ∧ (verification_method c6Address).blockchainAccountId = "eip155:10:" ++ c6Address :=
  ⟨rfl, rfl⟩

/-- C6 amended: construction accepts no network identifier and cannot
fail — for every address it produces the hardcoded default network
`optimism` with chain id 10; no network-to-chain-id mapping and no
UnknownNetworkError exist in the code. -/
theorem C6_network_hardcoded (a : String) :
    (did_document a).id = "did:ethr:optimism:" ++ a
    ∧ (verification_method a).blockchainAccountId = "eip155:10:" ++ a :=
  ⟨rfl, rfl⟩

/-- C7 counterexample: on a bundle whose signature is malformed,
`verify_did` does not return false — the recovery failure propagates
out of the call (the code wraps `Account.recover_message` in no
handler). -/
theorem C7_counterexample :
    verify_did c7Bundle = .error RecoveryError.malformedSignature := rfl

/-- C7 amended: whenever address recovery fails on the bundle's
re-serialized document, `verify_did` propagates that recovery error to
its caller instead of reporting a boolean; only the surrounding caller
(`main`, with its catch-all handler) turns it into a failure report. -/
theorem C7_recovery_error_propagates (b : DIDInfo) (e : RecoveryError)
    (h : recover_message (encode_defunct (serialize_document b.did_document)) b.signature
        = Except.error e) :
    verify_did b = .error e := by
  simp only [verify_did]
  rw [h]

/-- C7 witness: the propagation theorem applied to a concrete bundle
with a malformed signature. -/
theorem C7_witness : verify_did c7BundleW = .error RecoveryError.malformedSignature :=
  C7_recovery_error_propagates c7BundleW RecoveryError.malformedSignature rfl

/-- C8: the signed bytes are the serialization of the document as
computed before any signature exists — the bundle's signature is
exactly the signature over the prefixed serialization of the returned
`did_document`, and that document has no signature field (its JSON
keys are exactly the five schema keys). -/
theorem C8_signature_outside_signed_payload (k : KeyPair) :
    (create_ethereum_did k).signature
        = sign_message (encode_defunct (serialize_document (create_ethereum_did k).did_document)) k
    ∧ objKeys (docJson (create_ethereum_did k).did_document)
        = ["@context", "id", "verificationMethod", "authentication", "assertionMethod"]
    ∧ "signature" ∉ objKeys (docJson (create_ethereum_did k).did_document) := by
  refine ⟨rfl, rfl, ?_⟩
  show "signature" ∉ ["@context", "id", "verificationMethod", "authentication", "assertionMethod"]
  decide

/-- C9: every constructed document contains exactly the one
verification method, whose id is the document's DID followed by
`#controller` and whose controller is that DID; and every id listed in
authentication and assertionMethod occurs among the ids of
verificationMethod. -/
theorem C9_structural_invariant (a : String) :
    (did_document a).verificationMethod = [verification_method a]
    ∧ (verification_method a).id = (did_document a).id ++ "#controller"
    ∧ (verification_method a).controller = (did_document a).id
    ∧ ((did_document a).authentication.all
        (fun x => ((did_document a).verificationMethod.map VerificationMethod.id).contains x))
        = true
    ∧ ((did_document a).assertionMethod.all
        (fun x => ((did_document a).verificationMethod.map VerificationMethod.id).contains x))
        = true := by
  refine ⟨rfl, rfl, rfl, ?_, ?_⟩ <;> simp [did_document, verification_method]

/-- C10: the verification result depends only on the bundle's
`did_document`, `signature` and `address` fields — bundles agreeing on
those three verify identically whatever their `did` and `private_key`
hold. -/
theorem C10_verify_depends_only_on_public_fields (b1 b2 : DIDInfo)
    (hdoc : b1.did_document = b2.did_document)
    (hsig : b1.signature = b2.signature)
    (haddr : b1.address = b2.address) :
    verify_did b1 = verify_did b2 := by
  simp only [verify_did]
  rw [hdoc, hsig, haddr]

/-- C10 witness: the field-dependence theorem applied to two bundles
differing only in `did` and `private_key`. -/
theorem C10_witness : verify_did c10BundleA = verify_did c10BundleB :=
  C10_verify_depends_only_on_public_fields c10BundleA c10BundleB rfl rfl rfl
